import Mathlib

/-!
Verification of the load-testing tool in `src/main.go` (package main of the
stress-test repository).  The Go program fans out a fixed number of HTTP
requests under a bounded-concurrency semaphore, classifies transport errors
into synthetic status codes, aggregates the per-request results into a
`Report`, and renders/exports that report.

The definitions below are a shallow embedding of the Go source:
`time.Duration` values (nanoseconds, always non-negative in this program
since they come from `time.Since`) are modelled as `Nat`; status codes as
`Int` (Go `int`); Go maps (`map[int]int`, `map[string]ErrorDetail`) as
association lists whose entry order is an arbitrary determinization of Go's
unordered map iteration — every statement proved about them is
order-independent; a Go `error` value as an optional record carrying the
`net.Error` type information the classifier inspects plus the message text.
-/

namespace StressTest

/-! ## Strings: `strings.Contains` -/

/-- Decides whether `pat` is a prefix of `s` (character lists). -/
def hasPrefixChars : List Char → List Char → Bool
  | _, [] => true
  | [], _ :: _ => false
  | c :: cs, p :: ps => c == p && hasPrefixChars cs ps

/-- Decides whether `pat` occurs as a contiguous substring of `s`
(character lists). -/
def hasSubstringChars : List Char → List Char → Bool
  | [], pat => hasPrefixChars [] pat
  | c :: t, pat => hasPrefixChars (c :: t) pat || hasSubstringChars t pat

/-- Model of Go `strings.Contains s pat`. -/
def strContains (s pat : String) : Bool :=
  hasSubstringChars s.toList pat.toList

/-! ## Go `error` values -/

/-- View of a Go `error` value as seen by `classifyErrorToHTTPStatus`:
whether the dynamic type satisfies the `net.Error` interface, the results
of its `Timeout()` and `Temporary()` methods (meaningful only when
`isNetError` is true; the classifier guards them accordingly), and the
`Error()` message text. -/
structure GoError where
  isNetError : Bool
  netTimeout : Bool
  netTemporary : Bool
  msg : String

/-! ## Error classifier (`classifyErrorToHTTPStatus`, src/main.go:487-570) -/

/-- Model of `classifyErrorToHTTPStatus`.  A `nil` error is `none`.  The
`dial tcp` block of the Go source falls through to the `net/http` check and
the final fallback when neither of its two inner substring tests matches;
the two flattened `dial tcp && _` branches below are observationally the
same control flow. -/
def classifyErrorToHTTPStatus : Option GoError → Int
  | none => 200
  | some e =>
    if e.isNetError && e.netTimeout then 408
    else if e.isNetError && e.netTemporary then 503
    else if strContains e.msg "connection refused" then 503
    else if strContains e.msg "no such host"
        || (strContains e.msg "lookup" && strContains e.msg "no such host") then 404
    else if strContains e.msg "certificate" || strContains e.msg "x509" then 495
    else if strContains e.msg "connection reset" then 500
    else if strContains e.msg "TLS handshake timeout" then 408
    else if strContains e.msg "stopped after" && strContains e.msg "redirects" then 310
    else if strContains e.msg "EOF" then 500
    else if strContains e.msg "connection closed" then 500
    else if strContains e.msg "context deadline exceeded" then 408
    else if strContains e.msg "dial tcp" && strContains e.msg "connection refused" then 503
    else if strContains e.msg "dial tcp" && strContains e.msg "i/o timeout" then 408
    else if strContains e.msg "net/http" then 500
    else 500

/-- The classifier's checks in the order the Go source evaluates them, as a
(predicate, code) list; used to state that `classifyErrorToHTTPStatus` is a
first-match-wins scan with fallback 500. -/
def classifierChecks : List ((GoError → Bool) × Int) :=
  [ (fun e => e.isNetError && e.netTimeout, 408),
    (fun e => e.isNetError && e.netTemporary, 503),
    (fun e => strContains e.msg "connection refused", 503),
    (fun e => strContains e.msg "no such host"
        || (strContains e.msg "lookup" && strContains e.msg "no such host"), 404),
    (fun e => strContains e.msg "certificate" || strContains e.msg "x509", 495),
    (fun e => strContains e.msg "connection reset", 500),
    (fun e => strContains e.msg "TLS handshake timeout", 408),
    (fun e => strContains e.msg "stopped after" && strContains e.msg "redirects", 310),
    (fun e => strContains e.msg "EOF", 500),
    (fun e => strContains e.msg "connection closed", 500),
    (fun e => strContains e.msg "context deadline exceeded", 408),
    (fun e => strContains e.msg "dial tcp" && strContains e.msg "connection refused", 503),
    (fun e => strContains e.msg "dial tcp" && strContains e.msg "i/o timeout", 408),
    (fun e => strContains e.msg "net/http", 500) ]

/-- First-match-wins scan over a check list, defaulting to 500. -/
def firstMatch : List ((GoError → Bool) × Int) → GoError → Int
  | [], _ => 500
  | c :: rest, e => if c.1 e then c.2 else firstMatch rest e

/-- Modelled from the spec (section 4.1): a classifier that applies the
spec's stated priority order — timeout category (deadline exceeded, I/O
timeout, handshake timeout) → 408, temporary → 503, connection refused →
503, host resolution → 404, certificate/trust → 495, connection
reset / EOF / connection closed / generic transport-library error → 500,
excessive redirects → 310, fallback 500.  Compared against
`classifyErrorToHTTPStatus` (the source's order) for claim C4. -/
def classifySpecOrder : Option GoError → Int
  | none => 200
  | some e =>
    if (e.isNetError && e.netTimeout)
        || strContains e.msg "context deadline exceeded"
        || strContains e.msg "i/o timeout"
        || strContains e.msg "TLS handshake timeout" then 408
    else if e.isNetError && e.netTemporary then 503
    else if strContains e.msg "connection refused" then 503
    else if strContains e.msg "no such host" then 404
    else if strContains e.msg "certificate" || strContains e.msg "x509" then 495
    else if strContains e.msg "connection reset" || strContains e.msg "EOF"
        || strContains e.msg "connection closed" || strContains e.msg "net/http" then 500
    else if strContains e.msg "stopped after" && strContains e.msg "redirects" then 310
    else 500

/-! ## Outcomes and reports (src/main.go:343-347, 396-414) -/

/-- Model of `Result`: one attempt's outcome.  `duration` is nanoseconds. -/
structure Result where
  statusCode : Int
  duration : Nat
  error : Option GoError

/-- Model of `ErrorDetail` (the second, current version of the struct,
src/main.go:410-414, which also records the status code first associated
with the message). -/
structure ErrorDetail where
  count : Nat
  message : String
  code : Int

/-- Model of `Report`.  `TotalTime` and `RPS` are wall-clock/floating-point
quantities outside the claims under verification and are omitted;
`StdDeviation` is represented through `calculateStdDeviationVariance`
below. -/
structure Report where
  totalRequests : Nat
  statusCodes : List (Int × Nat)
  errors : Nat
  durations : List Nat
  minDuration : Nat
  maxDuration : Nat
  avgDuration : Nat
  errorDetails : List (String × ErrorDetail)

/-- One hour in nanoseconds: the `time.Hour` sentinel `collectResults`
uses to initialize `MinDuration`. -/
def hourNs : Nat := 3600000000000

/-- Model of `report.StatusCodes[code]++` on the Go map: increment the
entry if present, otherwise create it with count 1. -/
def bumpCount : List (Int × Nat) → Int → List (Int × Nat)
  | [], k => [(k, 1)]
  | (a, n) :: t, k => if a = k then (a, n + 1) :: t else (a, n) :: bumpCount t k

/-- Model of the `ErrorDetails` update in `collectResults`
(src/main.go:637-646): look the message up; if absent create a detail
carrying the message and the result's status code; increment its count;
store it back.  An existing entry keeps its original `code`. -/
def updateErrorDetails : List (String × ErrorDetail) → String → Int → List (String × ErrorDetail)
  | [], msg, code => [(msg, { count := 1, message := msg, code := code })]
  | (k, d) :: t, msg, code =>
    if k = msg then (k, { d with count := d.count + 1 }) :: t
    else (k, d) :: updateErrorDetails t msg code

/-- Sum of the counts of the outcome-code histogram. -/
def histTotal (m : List (Int × Nat)) : Nat :=
  (m.map Prod.snd).sum

/-- Sum of `Count` over all `ErrorDetail` entries. -/
def detailTotal (m : List (String × ErrorDetail)) : Nat :=
  (m.map (fun p => p.2.count)).sum

/-- Model of one iteration of the `for result := range results` loop of
`collectResults` (src/main.go:628-659): bump the total and the histogram,
record the error if any, and append the duration / update min and max only
when the duration is strictly positive. -/
def processResult (r : Report) (res : Result) : Report :=
  { totalRequests := r.totalRequests + 1
    statusCodes := bumpCount r.statusCodes res.statusCode
    errors :=
      match res.error with
      | some _ => r.errors + 1
      | none => r.errors
    errorDetails :=
      match res.error with
      | some e => updateErrorDetails r.errorDetails e.msg res.statusCode
      | none => r.errorDetails
    durations :=
      if 0 < res.duration then r.durations ++ [res.duration] else r.durations
    minDuration :=
      if 0 < res.duration then
        (if res.duration < r.minDuration then res.duration else r.minDuration)
      else r.minDuration
    maxDuration :=
      if 0 < res.duration then
        (if r.maxDuration < res.duration then res.duration else r.maxDuration)
      else r.maxDuration
    avgDuration := r.avgDuration }

/-- The report `collectResults` starts from (src/main.go:621-626):
empty histogram and details, `MinDuration` preset to one hour. -/
def initialReport : Report :=
  { totalRequests := 0
    statusCodes := []
    errors := 0
    durations := []
    minDuration := hourNs
    maxDuration := 0
    avgDuration := 0
    errorDetails := [] }

/-- Model of the average computation after the stream closes
(src/main.go:663-670): sum of the collected durations divided (integer
`time.Duration` division, here `Nat` division) by their number, left
unchanged (zero) when the collection is empty. -/
def finalizeReport (r : Report) : Report :=
  { r with
    avgDuration :=
      if 0 < r.durations.length then r.durations.sum / r.durations.length
      else r.avgDuration }

/-- Model of `collectResults` (src/main.go:620-679) applied to the stream
of results, presented as the list of outcomes in arrival order. -/
def collectResults (results : List Result) : Report :=
  finalizeReport (results.foldl processResult initialReport)

/-- The durations of a result stream that count toward the latency
statistics: the strictly positive ones, in arrival order. -/
def positiveDurations (results : List Result) : List Nat :=
  (results.map Result.duration).filter (fun d => 0 < d)

/-- The number of failed outcomes in a result stream (those carrying an
error). -/
def errorCount (results : List Result) : Nat :=
  (results.filter (fun res => res.error.isSome)).length

/-! ## Statistics engine (src/main.go:681-708) -/

/-- Model of Go's `sort.Slice(durations, less-than)`: the ascending sorted
rearrangement of the list (unique, since `≤` on `Nat` is total and
antisymmetric). -/
def sortDurations (l : List Nat) : List Nat :=
  List.insertionSort (· ≤ ·) l

/-- Model of `calculatePercentile` (src/main.go:681-694) including its
effect on the caller's slice: `sort.Slice` sorts the argument in place
through the shared backing array, so the function both returns the selected
element and leaves the slice sorted.  The first component is the returned
value, the second the slice contents after the call.  The Go parameter is a
`float64` but every call site passes the integers 50, 90, 95 and 99, and
for an integer `p` the conversion `int(float64(n) * p / 100)` is exactly
the floor division `n * p / 100` (the quotient is at least 1/100 away from
any other integer, far beyond `float64` rounding error at these
magnitudes), so `p` is modelled as `Nat`. -/
def calculatePercentileM (durations : List Nat) (percentile : Nat) : Nat × List Nat :=
  if durations.length = 0 then (0, durations)
  else
    let sorted := sortDurations durations
    let index := durations.length * percentile / 100
    let clamped := if durations.length ≤ index then durations.length - 1 else index
    (sorted.getD clamped 0, sorted)

/-- The value `calculatePercentile` returns. -/
def calculatePercentile (durations : List Nat) (percentile : Nat) : Nat :=
  (calculatePercentileM durations percentile).1

/-- Model of `calculateStdDeviation` (src/main.go:696-708) up to the final
square root: the population variance, in seconds squared, of the durations
around `avg` (both in nanoseconds, `Seconds()` dividing by 10^9), computed
exactly in `ℚ` where the Go code uses `float64`; the empty-input guard
returns 0 before any division, exactly as in the source.  The Go function
returns `Duration(sqrt(variance) · 10^9)`; the square root is strictly
monotone and maps 0 to 0, so the returned deviation is zero exactly when
this variance is zero. -/
def calculateStdDeviationVariance (durations : List Nat) (avg : Nat) : ℚ :=
  if durations.length = 0 then 0
  else
    ((durations.map
        (fun d : ℕ => ((d : ℚ) / 1000000000 - (avg : ℚ) / 1000000000) ^ 2)).sum)
      / (durations.length : ℚ)

/-! ## Rendering and export of the minimum (src/main.go:757-769, 362-383) -/

/-- Model of the `Minimum:` line of `printReport`: the plain-text report
prints `MinDuration` only inside the `len(report.Durations) > 0` branch
(src/main.go:759-769); `none` means the line is not printed and the
"No successful requests to measure response time" branch runs instead. -/
def printedMinimum (r : Report) : Option Nat :=
  if 0 < r.durations.length then some r.minDuration else none

/-- Rendering of `fmt.Sprintf("%.2f", float64(n))` for a natural number
`n` (the exporter feeds it integer millisecond values, exact in `float64`
far below 2^53): the decimal digits followed by ".00". -/
def formatFloat2 (n : Nat) : String :=
  toString n ++ ".00"

/-- The `Min Duration (ms)` column of the data row of
`CSVExporter.Export` (src/main.go:367-374): written unconditionally as
`%.2f` of `float64(r.MinDuration.Milliseconds())`, where `Milliseconds()`
is nanoseconds divided by 10^6 (truncated). -/
def csvMinDurationField (r : Report) : String :=
  formatFloat2 (r.minDuration / 1000000)

/-! ## Configuration and dispatch guard (src/main.go:385-394, 416-442) -/

/-- Model of `Config` (src/main.go:385-394).  `requests` and `concurrency`
are Go `int`s and may be negative. -/
structure Config where
  url : String
  requests : Int
  concurrency : Int
  timeoutNs : Nat
  method : String
  headers : List (String × String)
  body : String
  format : String

/-- Model of the only validation `main` performs before calling
`executeLoadTest` (src/main.go:434-439): dispatch starts unless the URL is
empty or the request count is zero.  `Concurrency` is not inspected. -/
def dispatchStarts (c : Config) : Bool :=
  !(c.url == "" || c.requests == 0)

/-- A configuration with a positive request count, a non-empty URL and
concurrency zero: invalid according to the spec, yet accepted by the only
validation the program performs. -/
def cfgZeroConcurrency : Config :=
  { url := "http://localhost:8080"
    requests := 1
    concurrency := 0
    timeoutNs := 10000000000
    method := "GET"
    headers := []
    body := ""
    format := "plain" }

/-! ## Dispatcher semaphore (src/main.go:444-472) -/

/-- Abstract state of the dispatcher's worker tasks: how many have not yet
sent on the semaphore channel, how many are between their semaphore send
and their semaphore receive (these are exactly the tasks allowed to run
`makeRequest`), and how many have finished. -/
structure DispState where
  waiting : Nat
  holding : Nat
  done : Nat

/-- Transitions of the dispatcher with semaphore capacity `C`
(`semaphore := make(chan struct\x7b\x7d, config.Concurrency)`):
`acquire` models a task's `semaphore <- struct\x7b\x7d\x7b\x7d`, which a
buffered channel accepts only while fewer than `C` tokens are buffered —
and exactly the tasks holding a token run `makeRequest`; `release` models
`<-semaphore` after the request and the progress send. -/
inductive DispStep (C : Nat) : DispState → DispState → Prop
  | acquire (s : DispState) (hw : 0 < s.waiting) (hc : s.holding < C) :
      DispStep C s (DispState.mk (s.waiting - 1) (s.holding + 1) s.done)
  | release (s : DispState) (hh : 0 < s.holding) :
      DispStep C s (DispState.mk s.waiting (s.holding - 1) (s.done + 1))

/-- States reachable by the dispatcher run with semaphore capacity `C` and
`n` worker tasks, all launched up front in the waiting state
(src/main.go:454-463). -/
inductive DispReachable (C n : Nat) : DispState → Prop
  | init : DispReachable C n (DispState.mk n 0 0)
  | step (s s2 : DispState) (h1 : DispReachable C n s) (h2 : DispStep C s s2) :
      DispReachable C n s2

/-! ## Request construction failure (src/main.go:583-592) -/

/-- Model of the `http.NewRequest` error branch of `makeRequest`: the
request could not even be constructed, so the task sends a `Result` with
the classified status code, the error, and duration 0. -/
def constructionFailureResult (e : GoError) : Result :=
  { statusCode := classifyErrorToHTTPStatus (some e)
    duration := 0
    error := some e }

/-! ## Concrete values used by witnesses and counterexamples -/

/-- A request-construction failure, as produced by `http.NewRequest` for a
malformed method. -/
def errInvalidMethod : GoError :=
  { isNetError := false, netTimeout := false, netTemporary := false
    msg := "net/http: invalid method" }

/-- A connection-refused transport failure. -/
def errConnRefused : GoError :=
  { isNetError := false, netTimeout := false, netTemporary := false
    msg := "dial tcp 127.0.0.1:8080: connect: connection refused" }

/-- An error message matching both the redirect-limit check and the EOF
check. -/
def errRedirectsEOF : GoError :=
  { isNetError := false, netTimeout := false, netTemporary := false
    msg := "Get http://example.com: stopped after 10 redirects: EOF" }

/-- The result of a request-construction failure for `errInvalidMethod`. -/
def resInvalidMethod : Result :=
  constructionFailureResult errInvalidMethod

/-- A successful attempt: status 200 in 12ms. -/
def resOk200 : Result :=
  { statusCode := 200, duration := 12000000, error := none }

/-- A failed attempt: synthesized 503 after 5ms. -/
def resRefused503 : Result :=
  { statusCode := 503, duration := 5000000, error := some errConnRefused }

/-- A two-outcome result stream: one success, one transport failure. -/
def rs1 : List Result :=
  [resOk200, resRefused503]

/-! ## Helper lemmas about the aggregation fold -/

theorem histTotal_bumpCount (m : List (Int × Nat)) (k : Int) :
    histTotal (bumpCount m k) = histTotal m + 1 := by
  induction m with
  | nil => simp [bumpCount, histTotal]
  | cons p t ih =>
    obtain ⟨a, n⟩ := p
    by_cases h : a = k
    · simp [bumpCount, h, histTotal]
      omega
    · simp only [bumpCount, if_neg h, histTotal, List.map_cons, List.sum_cons] at ih ⊢
      omega

theorem detailTotal_updateErrorDetails (m : List (String × ErrorDetail))
    (msg : String) (code : Int) :
    detailTotal (updateErrorDetails m msg code) = detailTotal m + 1 := by
  induction m with
  | nil => simp [updateErrorDetails, detailTotal]
  | cons p t ih =>
    obtain ⟨k, d⟩ := p
    by_cases h : k = msg
    · simp [updateErrorDetails, h, detailTotal]
      omega
    · simp only [updateErrorDetails, if_neg h, detailTotal, List.map_cons,
        List.sum_cons] at ih ⊢
      omega

theorem positiveDurations_cons (res : Result) (t : List Result) :
    positiveDurations (res :: t)
      = if 0 < res.duration then res.duration :: positiveDurations t
        else positiveDurations t := by
  simp [positiveDurations, List.filter_cons]

theorem processResult_min (r : Report) (res : Result) :
    (processResult r res).minDuration
      = if 0 < res.duration then min r.minDuration res.duration
        else r.minDuration := by
  simp only [processResult]
  split_ifs with h1 h2 <;> first | rfl | omega

theorem processResult_max (r : Report) (res : Result) :
    (processResult r res).maxDuration
      = if 0 < res.duration then max r.maxDuration res.duration
        else r.maxDuration := by
  simp only [processResult]
  split_ifs with h1 h2 <;> first | rfl | omega

theorem foldl_totalRequests (l : List Result) (r : Report) :
    (l.foldl processResult r).totalRequests = r.totalRequests + l.length := by
  induction l generalizing r with
  | nil => simp
  | cons res t ih =>
    rw [List.foldl_cons, ih]
    simp [processResult]
    omega

theorem foldl_avgDuration (l : List Result) (r : Report) :
    (l.foldl processResult r).avgDuration = r.avgDuration := by
  induction l generalizing r with
  | nil => rfl
  | cons res t ih =>
    rw [List.foldl_cons, ih]
    rfl

theorem foldl_durations (l : List Result) (r : Report) :
    (l.foldl processResult r).durations = r.durations ++ positiveDurations l := by
  induction l generalizing r with
  | nil => simp [positiveDurations]
  | cons res t ih =>
    rw [List.foldl_cons, ih, positiveDurations_cons]
    by_cases h : 0 < res.duration <;> simp [processResult, h]

theorem foldl_minDuration (l : List Result) (r : Report) :
    (l.foldl processResult r).minDuration
      = (positiveDurations l).foldl min r.minDuration := by
  induction l generalizing r with
  | nil => simp [positiveDurations]
  | cons res t ih =>
    rw [List.foldl_cons, ih, positiveDurations_cons]
    by_cases h : 0 < res.duration
    · rw [if_pos h, List.foldl_cons, processResult_min, if_pos h]
    · rw [if_neg h, processResult_min, if_neg h]

theorem foldl_maxDuration (l : List Result) (r : Report) :
    (l.foldl processResult r).maxDuration
      = (positiveDurations l).foldl max r.maxDuration := by
  induction l generalizing r with
  | nil => simp [positiveDurations]
  | cons res t ih =>
    rw [List.foldl_cons, ih, positiveDurations_cons]
    by_cases h : 0 < res.duration
    · rw [if_pos h, List.foldl_cons, processResult_max, if_pos h]
    · rw [if_neg h, processResult_max, if_neg h]

theorem foldl_histTotal (l : List Result) (r : Report) :
    histTotal (l.foldl processResult r).statusCodes
      = histTotal r.statusCodes + l.length := by
  induction l generalizing r with
  | nil => simp
  | cons res t ih =>
    rw [List.foldl_cons, ih]
    show histTotal (bumpCount r.statusCodes res.statusCode) + t.length = _
    rw [histTotal_bumpCount]
    simp only [List.length_cons]
    omega

theorem errorCount_cons (res : Result) (t : List Result) :
    errorCount (res :: t)
      = if res.error.isSome then errorCount t + 1 else errorCount t := by
  simp [errorCount, List.filter_cons]
  by_cases h : res.error.isSome <;> simp [h]

theorem foldl_errors (l : List Result) (r : Report) :
    (l.foldl processResult r).errors = r.errors + errorCount l := by
  induction l generalizing r with
  | nil => simp [errorCount]
  | cons res t ih =>
    rw [List.foldl_cons, ih, errorCount_cons]
    cases h : res.error with
    | none => simp [processResult, h]
    | some e => simp [processResult, h] ; omega

theorem foldl_detailTotal (l : List Result) (r : Report) :
    detailTotal (l.foldl processResult r).errorDetails
      = detailTotal r.errorDetails + errorCount l := by
  induction l generalizing r with
  | nil => simp [errorCount]
  | cons res t ih =>
    rw [List.foldl_cons, ih, errorCount_cons]
    cases h : res.error with
    | none => simp [processResult, h]
    | some e =>
      simp [processResult, h, detailTotal_updateErrorDetails]
      omega

theorem foldl_min_le (l : List Nat) (a : Nat) : l.foldl min a ≤ a := by
  induction l generalizing a with
  | nil => simp
  | cons d t ih => exact le_trans (ih (min a d)) (Nat.min_le_left a d)

theorem sortDurations_perm (l : List Nat) : (sortDurations l).Perm l :=
  List.perm_insertionSort (· ≤ ·) l

theorem sortDurations_sorted (l : List Nat) : (sortDurations l).Sorted (· ≤ ·) :=
  List.sorted_insertionSort (· ≤ ·) l

theorem sortDurations_eq_of_perm (l1 l2 : List Nat) (h : l1.Perm l2) :
    sortDurations l1 = sortDurations l2 :=
  List.eq_of_perm_of_sorted
    ((sortDurations_perm l1).trans (h.trans (sortDurations_perm l2).symm))
    (sortDurations_sorted l1) (sortDurations_sorted l2)

theorem calculatePercentile_congr_perm (l1 l2 : List Nat) (p : Nat)
    (h : l1.Perm l2) :
    calculatePercentile l1 p = calculatePercentile l2 p := by
  unfold calculatePercentile calculatePercentileM
  rw [h.length_eq, sortDurations_eq_of_perm l1 l2 h]
  by_cases h0 : l2.length = 0 <;> simp [h0]

theorem calculateStdDeviationVariance_congr_perm (l1 l2 : List Nat) (avg : Nat)
    (h : l1.Perm l2) :
    calculateStdDeviationVariance l1 avg = calculateStdDeviationVariance l2 avg := by
  have hsum :
      (l1.map (fun d : ℕ => ((d : ℚ) / 1000000000 - (avg : ℚ) / 1000000000) ^ 2)).sum
        = (l2.map (fun d : ℕ => ((d : ℚ) / 1000000000 - (avg : ℚ) / 1000000000) ^ 2)).sum :=
    (h.map _).sum_eq
  unfold calculateStdDeviationVariance
  rw [h.length_eq, hsum]

theorem firstMatch_mem (codes : List Int) (h500 : (500 : Int) ∈ codes) :
    ∀ (cs : List ((GoError → Bool) × Int)), (∀ pc ∈ cs, pc.2 ∈ codes) →
      ∀ e, firstMatch cs e ∈ codes := by
  intro cs
  induction cs with
  | nil => intro _ e; exact h500
  | cons c rest ih =>
    intro hall e
    show (if c.1 e then c.2 else firstMatch rest e) ∈ codes
    by_cases hc : c.1 e
    · rw [if_pos hc]
      exact hall c (by simp)
    · rw [if_neg hc]
      exact ih (fun pc hpc => hall pc (by simp [hpc])) e

/-! ## Claim theorems -/

/-- C1: for every completed `Report` built by `collectResults` from a
stream of exactly `requests` outcomes, the sum of the counts in the
`StatusCodes` histogram equals `TotalRequests` equals `requests`, and
`Errors` equals the sum of `Count` over all `ErrorDetail` entries; both
equalities are preserved by every per-outcome aggregation step. -/
theorem report_histogram_invariants (requests : Nat) (results : List Result)
    (h : results.length = requests) :
    histTotal (collectResults results).statusCodes
        = (collectResults results).totalRequests
    ∧ (collectResults results).totalRequests = requests
    ∧ (collectResults results).errors
        = detailTotal (collectResults results).errorDetails
    ∧ ∀ (r : Report) (res : Result),
        histTotal r.statusCodes = r.totalRequests →
        r.errors = detailTotal r.errorDetails →
        histTotal (processResult r res).statusCodes
            = (processResult r res).totalRequests
        ∧ (processResult r res).errors
            = detailTotal (processResult r res).errorDetails := by
  subst h
  refine ⟨?_, ?_, ?_, ?_⟩
  · show histTotal (results.foldl processResult initialReport).statusCodes
      = (results.foldl processResult initialReport).totalRequests
    rw [foldl_histTotal, foldl_totalRequests]
    rfl
  · show (results.foldl processResult initialReport).totalRequests = results.length
    rw [foldl_totalRequests]
    simp [initialReport]
  · show (results.foldl processResult initialReport).errors
      = detailTotal (results.foldl processResult initialReport).errorDetails
    rw [foldl_errors, foldl_detailTotal]
    rfl
  · intro r res hh he
    constructor
    · show histTotal (bumpCount r.statusCodes res.statusCode) = r.totalRequests + 1
      rw [histTotal_bumpCount, hh]
    · cases hres : res.error with
      | none => simpa [processResult, hres] using he
      | some e => simp [processResult, hres, detailTotal_updateErrorDetails, he]

/-- Witness for C1 at the concrete two-outcome stream `rs1` (one success,
one classified failure) and one concrete aggregation step. -/
theorem report_histogram_invariants_witness :
    histTotal (collectResults rs1).statusCodes = (collectResults rs1).totalRequests
    ∧ (collectResults rs1).totalRequests = 2
    ∧ (collectResults rs1).errors = detailTotal (collectResults rs1).errorDetails
    ∧ histTotal (processResult initialReport resOk200).statusCodes
        = (processResult initialReport resOk200).totalRequests := by
  have h := report_histogram_invariants 2 rs1 rfl
  exact ⟨h.1, h.2.1, h.2.2.1, (h.2.2.2 initialReport resOk200 rfl rfl).1⟩

/-- C2: on a non-empty duration collection of length `n`,
`calculatePercentile` with percentile `p` returns the element at index
`floor(n * p / 100)`, clamped to `n - 1`, of the collection sorted
ascending — nearest-rank, no interpolation.  The sorted collection is
characterized abstractly as any sorted permutation `s` of the input. -/
theorem calculatePercentile_nearest_rank (l : List Nat) (p : Nat) (hne : l ≠ [])
    (s : List Nat) (hperm : l.Perm s) (hsort : s.Sorted (· ≤ ·)) :
    calculatePercentile l p
      = s.getD (min (l.length * p / 100) (l.length - 1)) 0 := by
  have hlen : l.length ≠ 0 := fun h0 => hne (List.length_eq_zero.mp h0)
  have hs : sortDurations l = s :=
    List.eq_of_perm_of_sorted ((sortDurations_perm l).trans hperm)
      (sortDurations_sorted l) hsort
  have key : calculatePercentile l p
      = (sortDurations l).getD
          (if l.length ≤ l.length * p / 100 then l.length - 1
           else l.length * p / 100) 0 := by
    unfold calculatePercentile calculatePercentileM
    rw [if_neg hlen]
  rw [key, hs]
  have hlpos : 0 < l.length := Nat.pos_of_ne_zero hlen
  congr 1
  split_ifs <;> omega

/-- Witness for C2: the 50th percentile of `[30, 10, 20]` is the element
at index `min 1 2 = 1` of the ascending sort `[10, 20, 30]`, namely 20. -/
theorem calculatePercentile_nearest_rank_witness :
    calculatePercentile [30, 10, 20] 50 = 20 := by
  rw [calculatePercentile_nearest_rank [30, 10, 20] 50 (by decide) [10, 20, 30]
    (by decide) (by decide)]
  decide

/-- C3: a completed report whose duration collection is empty (an
all-failure run) has average duration 0, standard deviation 0 (its
population variance, computed by `calculateStdDeviationVariance`, is 0, and
the Go code square-roots it into deviation 0), and every percentile 0 —
defined "no data" values, with no division by zero and no indexing of an
empty collection. -/
theorem empty_durations_no_data (results : List Result) (p : Nat)
    (h : (collectResults results).durations = []) :
    (collectResults results).avgDuration = 0
    ∧ calculateStdDeviationVariance (collectResults results).durations
        (collectResults results).avgDuration = 0
    ∧ calculatePercentile (collectResults results).durations p = 0 := by
  have hdur : (results.foldl processResult initialReport).durations = [] := h
  have havg : (collectResults results).avgDuration = 0 := by
    show (finalizeReport (results.foldl processResult initialReport)).avgDuration = 0
    unfold finalizeReport
    simp [hdur, foldl_avgDuration]
    rfl
  refine ⟨havg, ?_, ?_⟩
  · rw [h]
    simp [calculateStdDeviationVariance]
  · rw [h]
    rfl

/-- Witness for C3 at the empty result stream. -/
theorem empty_durations_no_data_witness :
    (collectResults []).avgDuration = 0
    ∧ calculateStdDeviationVariance (collectResults []).durations
        (collectResults []).avgDuration = 0
    ∧ calculatePercentile (collectResults []).durations 90 = 0 :=
  empty_durations_no_data [] 90 rfl

/-- C5: an aggregation step appends the outcome's duration to the duration
collection and folds it into the running min/max exactly when the duration
is non-zero, and leaves all three untouched when it is zero; in particular
a request-construction failure (`http.NewRequest` error branch of
`makeRequest`) carries duration 0 and contributes nothing to the duration
collection. -/
theorem zero_duration_excluded_from_stats (r : Report) (res : Result) (e : GoError) :
    (res.duration = 0 →
      (processResult r res).durations = r.durations
      ∧ (processResult r res).minDuration = r.minDuration
      ∧ (processResult r res).maxDuration = r.maxDuration)
    ∧ (0 < res.duration →
      (processResult r res).durations = r.durations ++ [res.duration]
      ∧ (processResult r res).minDuration = min r.minDuration res.duration
      ∧ (processResult r res).maxDuration = max r.maxDuration res.duration)
    ∧ (constructionFailureResult e).duration = 0
    ∧ (processResult r (constructionFailureResult e)).durations = r.durations := by
  refine ⟨?_, ?_, rfl, ?_⟩
  · intro h0
    refine ⟨by simp [processResult, h0], ?_, ?_⟩
    · rw [processResult_min, if_neg (by omega)]
    · rw [processResult_max, if_neg (by omega)]
  · intro hpos
    refine ⟨by simp [processResult, hpos], ?_, ?_⟩
    · rw [processResult_min, if_pos hpos]
    · rw [processResult_max, if_pos hpos]
  · simp [processResult, constructionFailureResult]

/-- Witness for C5: a concrete construction failure leaves the duration
collection alone, a concrete 12ms success is appended to it. -/
theorem zero_duration_excluded_from_stats_witness :
    (processResult initialReport resInvalidMethod).durations = initialReport.durations
    ∧ (processResult initialReport resOk200).durations
        = initialReport.durations ++ [resOk200.duration] := by
  refine ⟨((zero_duration_excluded_from_stats initialReport resInvalidMethod
    errInvalidMethod).1 rfl).1, ?_⟩
  exact ((zero_duration_excluded_from_stats initialReport resOk200
    errInvalidMethod).2.1 (by decide)).1

/-- C4 counterexample: the classifier does not follow the spec's stated
priority order.  On the message "Get http://example.com: stopped after 10
redirects: EOF" the source checks the redirect limit before EOF and returns
310, while the spec's order (reset/EOF → 500 before excessive redirects →
310) dictates 500.  Moreover the claim's "the same failure message always
yields the same code" fails: the source first inspects the dynamic
`net.Error` interface, so a timeout-flagged error with message "m" gets
408 while a plain error with the same message "m" gets the 500 fallback. -/
theorem classifier_spec_order_counterexample :
    classifyErrorToHTTPStatus (some errRedirectsEOF) = 310
    ∧ classifySpecOrder (some errRedirectsEOF) = 500
    ∧ classifyErrorToHTTPStatus (some
        { isNetError := true, netTimeout := true, netTemporary := false,
          msg := "m" }) = 408
    ∧ classifyErrorToHTTPStatus (some
        { isNetError := false, netTimeout := false, netTemporary := false,
          msg := "m" }) = 500 := by
  decide

set_option maxHeartbeats 2000000 in
/-- C4 amended: `classifyErrorToHTTPStatus` is a deterministic, total
function of the failure value (the `net.Error` timeout/temporary flags and
the message): every input yields a code in {200, 310, 404, 408, 495, 500,
503} (200 only for a nil error, 500 the fallback for any unrecognized
failure), and on failures it is exactly a first-match-wins scan of the
source's check list in source order — net timeout → 408, net temporary →
503, connection refused → 503, no such host → 404, certificate/x509 → 495,
connection reset → 500, TLS handshake timeout → 408, stopped-after
redirects → 310, EOF → 500, connection closed → 500, context deadline
exceeded → 408, dial tcp variants, net/http → 500 — with fallback 500. -/
theorem classifier_total_first_match :
    (∀ err : Option GoError,
      classifyErrorToHTTPStatus err ∈ ([200, 310, 404, 408, 495, 500, 503] : List Int))
    ∧ ∀ e : GoError, classifyErrorToHTTPStatus (some e) = firstMatch classifierChecks e := by
  have heq : ∀ e : GoError,
      classifyErrorToHTTPStatus (some e) = firstMatch classifierChecks e := by
    intro e
    simp only [classifyErrorToHTTPStatus, classifierChecks, firstMatch]
  refine ⟨?_, heq⟩
  intro err
  match err with
  | none => decide
  | some e =>
    rw [heq e]
    refine firstMatch_mem _ (by decide) _ ?_ e
    intro pc hpc
    fin_cases hpc <;> decide

/-- C6 counterexample: `calculatePercentile` does not operate on a private
copy.  `sort.Slice` sorts the report's `Durations` slice in place through
the shared backing array, so after the call on `[2, 1]` the collection is
`[1, 2]`, not the original `[2, 1]`: the report's duration collection is
not identical before and after the call. -/
theorem percentile_no_private_copy_counterexample :
    (calculatePercentileM [2, 1] 50).2 ≠ [2, 1]
    ∧ (calculatePercentileM [2, 1] 50).2 = [1, 2] := by
  decide

/-- C6 amended: the percentile call leaves the report's duration collection
a permutation of itself — it replaces it with its ascending sort — so the
multiset of durations is unchanged and every statistic derived from it
(subsequent percentiles, the standard-deviation variance) is unchanged;
`calculateStdDeviation` only reads the durations. -/
theorem percentile_sorts_in_place (l : List Nat) (p q avg : Nat) :
    ((calculatePercentileM l p).2).Perm l
    ∧ ((calculatePercentileM l p).2).Sorted (· ≤ ·)
    ∧ calculatePercentile (calculatePercentileM l p).2 q = calculatePercentile l q
    ∧ calculateStdDeviationVariance (calculatePercentileM l p).2 avg
        = calculateStdDeviationVariance l avg := by
  have hpost : (calculatePercentileM l p).2 = if l.length = 0 then l else sortDurations l := by
    unfold calculatePercentileM
    by_cases h0 : l.length = 0
    · rw [if_pos h0, if_pos h0]
    · rw [if_neg h0, if_neg h0]
  by_cases h0 : l.length = 0
  · rw [hpost, if_pos h0]
    exact ⟨List.Perm.refl l, by simp [List.length_eq_zero.mp h0], rfl, rfl⟩
  · rw [hpost, if_neg h0]
    have hperm := sortDurations_perm l
    exact ⟨hperm, sortDurations_sorted l,
      calculatePercentile_congr_perm _ _ q hperm,
      calculateStdDeviationVariance_congr_perm _ _ avg hperm⟩

/-- C7: the claimed configuration validation does not exist for the
concurrency limit.  The only check `main` performs before calling
`executeLoadTest` is URL non-empty and `Requests != 0`
(src/main.go:434-437), so a configuration with `Concurrency = 0` passes
validation and dispatch starts; with semaphore capacity 0 no worker task
can ever acquire the admission token, so from the initial dispatcher state
no transition exists while the run is not complete — the run deadlocks
instead of surfacing a configuration error. -/
theorem zero_concurrency_not_rejected :
    dispatchStarts cfgZeroConcurrency = true
    ∧ cfgZeroConcurrency.concurrency ≤ 0
    ∧ (∀ s2 : DispState, ¬ DispStep 0 (DispState.mk 1 0 0) s2)
    ∧ (DispState.mk 1 0 0).done ≠ 1 := by
  refine ⟨rfl, by decide, ?_, by decide⟩
  intro s2 hstep
  cases hstep with
  | acquire hw hc => exact Nat.not_lt_zero _ hc
  | release hh => exact Nat.lt_irrefl 0 hh

/-- C8 counterexample: the one-hour `MinDuration` sentinel does leak into
export output.  For the single-outcome stream holding one
request-construction failure the duration collection is empty and
`MinDuration` is still the sentinel, yet `CSVExporter.Export` writes the
`Min Duration (ms)` column unconditionally, rendering the sentinel as
"3600000.00" as if it were a real measured minimum. -/
theorem csv_sentinel_leak_counterexample :
    (collectResults [resInvalidMethod]).durations = []
    ∧ (collectResults [resInvalidMethod]).minDuration = hourNs
    ∧ csvMinDurationField (collectResults [resInvalidMethod]) = "3600000.00" := by
  decide

/-- C8 amended: when no attempt reached the network (empty duration
collection) the report's minimum is the one-hour sentinel; the plain-text
renderer does not present it (`printReport` prints the `Minimum:` line only
when the duration collection is non-empty), but the CSV exporter writes
the `Min Duration (ms)` column unconditionally, so the sentinel appears in
CSV export output as "3600000.00". -/
theorem sentinel_suppressed_in_plain_exposed_in_csv (results : List Result)
    (h : (collectResults results).durations = []) :
    (collectResults results).minDuration = hourNs
    ∧ printedMinimum (collectResults results) = none
    ∧ csvMinDurationField (collectResults results) = "3600000.00" := by
  have hdur : (results.foldl processResult initialReport).durations = [] := h
  have hpos : positiveDurations results = [] := by
    have hd := foldl_durations results initialReport
    rw [hdur] at hd
    simpa [initialReport] using hd.symm
  have hmin : (collectResults results).minDuration = hourNs := by
    show (results.foldl processResult initialReport).minDuration = hourNs
    rw [foldl_minDuration, hpos]
    rfl
  refine ⟨hmin, ?_, ?_⟩
  · simp [printedMinimum, h]
  · show formatFloat2 ((collectResults results).minDuration / 1000000) = "3600000.00"
    rw [hmin]
    decide

/-- Witness for C8's amended statement at the concrete all-failure
stream. -/
theorem sentinel_suppressed_in_plain_exposed_in_csv_witness :
    (collectResults [resInvalidMethod, resInvalidMethod]).minDuration = hourNs
    ∧ printedMinimum (collectResults [resInvalidMethod, resInvalidMethod]) = none
    ∧ csvMinDurationField (collectResults [resInvalidMethod, resInvalidMethod])
        = "3600000.00" := by
  exact sentinel_suppressed_in_plain_exposed_in_csv [resInvalidMethod, resInvalidMethod]
    (by decide)

/-- C9: with semaphore capacity `C`, in every reachable dispatcher state at
most `C` tasks hold an admission token — the transition system only admits
a task (the step that lets it run `makeRequest`) while fewer than `C`
tokens are held, and every task releases its token after its request — so
at most `C` HTTP calls are in flight at any instant even though all `n`
tasks exist concurrently. -/
theorem admission_token_bound (C n : Nat) (s : DispState)
    (h : DispReachable C n s) : s.holding ≤ C := by
  induction h with
  | init => exact Nat.zero_le C
  | step s1 s2 h1 h2 ih =>
    cases h2 with
    | acquire hw hc => exact hc
    | release hh => exact Nat.le_trans (Nat.sub_le s1.holding 1) ih

/-- Witness for C9: with capacity 2 and 3 tasks, the state after one
acquire step is reachable and holds 1 ≤ 2 tokens. -/
theorem admission_token_bound_witness : (DispState.mk 2 1 0).holding ≤ 2 :=
  admission_token_bound 2 3 (DispState.mk 2 1 0)
    (DispReachable.step (DispState.mk 3 0 0) (DispState.mk 2 1 0)
      DispReachable.init
      (DispStep.acquire (DispState.mk 3 0 0) (by decide) (by decide)))

/-- C10: in every report built by `collectResults`, `MinDuration` is the
minimum of the one-hour sentinel and all non-zero outcome durations of the
stream, and `MaxDuration` is the maximum of zero and those durations;
hence `MinDuration` never exceeds one hour (a true minimum above one hour
is never recorded), and on an empty duration collection `MinDuration` is
one hour and strictly exceeds `MaxDuration = 0`. -/
theorem minmax_sentinel_characterization (results : List Result) :
    (collectResults results).minDuration = (positiveDurations results).foldl min hourNs
    ∧ (collectResults results).maxDuration = (positiveDurations results).foldl max 0
    ∧ (collectResults results).durations = positiveDurations results
    ∧ (collectResults results).minDuration ≤ hourNs
    ∧ ((collectResults results).durations = [] →
        (collectResults results).minDuration = hourNs
        ∧ (collectResults results).maxDuration = 0
        ∧ (collectResults results).maxDuration < (collectResults results).minDuration) := by
  have hmin : (collectResults results).minDuration
      = (positiveDurations results).foldl min hourNs := by
    show (results.foldl processResult initialReport).minDuration = _
    rw [foldl_minDuration]
    rfl
  have hmax : (collectResults results).maxDuration
      = (positiveDurations results).foldl max 0 := by
    show (results.foldl processResult initialReport).maxDuration = _
    rw [foldl_maxDuration]
    rfl
  have hdur : (collectResults results).durations = positiveDurations results := by
    show (results.foldl processResult initialReport).durations = _
    rw [foldl_durations]
    rfl
  refine ⟨hmin, hmax, hdur, ?_, ?_⟩
  · rw [hmin]
    exact foldl_min_le _ _
  · intro hempty
    have hpos : positiveDurations results = [] := by rw [← hdur]; exact hempty
    rw [hmin, hmax, hpos]
    exact ⟨rfl, rfl, by decide⟩

/-- Witness for C10 at the empty stream: the sentinel minimum exceeds the
zero maximum. -/
theorem minmax_sentinel_characterization_witness :
    (collectResults []).minDuration = hourNs
    ∧ (collectResults []).maxDuration = 0
    ∧ (collectResults []).maxDuration < (collectResults []).minDuration := by
  exact (minmax_sentinel_characterization []).2.2.2.2 rfl

end StressTest
